import Mathlib

/-!
# Shallow embedding of the data-synchronization routine of `src/data.py`

The routine `update_and_save_station_data` reads a CSV cache, computes the
missing hours per station, fetches the tail from the earliest missing hour,
concatenates old and fetched rows, sorts and rewrites the file.

Modelling choices (each noted at the definition it concerns):
* timestamps are integer hour indices (all dates in the routine are
  hour-aligned: `END_DATE` is truncated to the hour, `full_date_range` has
  hourly frequency);
* the numeric measurement (`availableBikeNumber`, a float in pandas) is
  carried opaquely; no arithmetic is performed on it anywhere in the
  routine, so it is embedded as an `Int`;
* the CSV file is the bare list of its data rows (`to_csv` with
  `index=False` after `reset_index(drop=True)` stores no index column);
* `sort_values(by=['entityId', 'time_utc'])` is modelled by a sort with
  respect to the lexicographic preorder on those two fields (pandas'
  default quicksort fixes no tie order among rows with equal keys; the
  embedding uses a stable sort, one of the permitted outcomes).
-/

/-- A persisted cache row: `entityId` (int64 after the cast at
`src/data.py:250`), `time_utc` as an hour index, and the
`availableBikeNumber` value. -/
structure Row where
  entityId : Int
  time : Int
  value : Int
deriving DecidableEq, Repr

/-- A parsed row as produced by `create_dataframe_from_api_data`: the
`entityId` column is still the string extracted by the regex (possibly
empty), before the int64 cast of the merge phase. -/
structure RawRow where
  entityId : String
  time : Int
  value : Int
deriving DecidableEq, Repr

/-- The JSON body of a fetch response, as consumed by
`create_dataframe_from_api_data` (`src/data.py:115`): the keys `index`,
`entityId` and `attributes`; a `none` field models a missing key.  The
request asks for the single attribute `availableBikeNumber`
(`src/data.py:101`), so `attributes?` is its value list. -/
structure ApiData where
  index? : Option (List Int)
  entityId? : Option String
  attributes? : Option (List Int)
deriving DecidableEq, Repr

/-- One recorded call to `fetch_station_data` (station id, `fromDate`,
`toDate`), used to state which fetches a run performs. -/
structure FetchCall where
  station_id : Int
  from_date : Int
  to_date : Int
deriving DecidableEq, Repr

/-- Outcome of `fetch_station_data` together with the truthiness test
`if data:` at `src/data.py:238`: `raise` = the HTTP call raised an
exception; `noData` = a falsy result (`None` from a non-200 status at
`src/data.py:112`, or an empty JSON body); `ok d` = a truthy JSON body. -/
inductive FetchResult where
  | raise : FetchResult
  | noData : FetchResult
  | ok : ApiData → FetchResult
deriving DecidableEq, Repr

/-- `re.search(r'KielRegion:(\d+)', s)` (`src/data.py:148`): the leftmost
position where the literal `KielRegion:` is followed by at least one
digit; the capture is the maximal digit run after the colon. -/
def kielSearch : List Char → Option (List Char)
  | [] => none
  | c :: cs =>
      let ds := ((c :: cs).drop 11).takeWhile Char.isDigit
      if (c :: cs).take 11 = ("KielRegion:").toList ∧ ds ≠ [] then some ds
      else kielSearch cs

/-- `match.group(1) if match else ''` (`src/data.py:149`). -/
def entityIdNumber (s : String) : String :=
  match kielSearch s.toList with
  | some ds => String.mk ds
  | none => ("")

/-- `create_dataframe_from_api_data` (`src/data.py:115`-`169`):
missing keys raise a `ValueError`; building the frame and attaching the
`time_utc` column requires the value list and the index to have the same
length (pandas raises otherwise, caught at the per-station boundary);
on success one `RawRow` per index position. -/
def create_dataframe_from_api_data (data : ApiData) : Except String (List RawRow) :=
  match data.index?, data.entityId?, data.attributes? with
  | some idx, some eid, some vals =>
      if idx.length = vals.length then
        .ok ((idx.zip vals).map fun p => ⟨entityIdNumber eid, p.1, p.2⟩)
      else .error ("Length of values does not match length of index")
  | _, _, _ =>
      .error ("Data missing one of the essential keys: index, entityId, attributes")

/-- Loading phase (`src/data.py:203`-`212`): if the file exists, read it
and keep only the rows with `time_utc >= START_DATE`; a missing file is
an empty frame, not an error. -/
def loadOld (file : Option (List Row)) (START_DATE : Int) : List Row :=
  match file with
  | none => []
  | some rows => rows.filter fun r => decide (START_DATE ≤ r.time)

/-- `full_date_range` (`src/data.py:216`): the hours
`START_DATE, START_DATE+1, ..., END_DATE-1`. -/
def full_date_range (START_DATE END_DATE : Int) : List Int :=
  (List.range (END_DATE - START_DATE).toNat).map fun (i : Nat) => START_DATE + (i : Int)

/-- `available_dates` (`src/data.py:223`-`225`): the timestamps the old
frame holds for one station. -/
def available_dates (old : List Row) (station_id : Int) : List Int :=
  (old.filter fun r => decide (r.entityId = station_id)).map Row.time

/-- `missing_dates` (`src/data.py:227`): the hours of the window absent
from the station's cached timestamps. -/
def missing_dates (old : List Row) (START_DATE END_DATE station_id : Int) : List Int :=
  (full_date_range START_DATE END_DATE).filter fun t =>
    decide (t ∉ available_dates old station_id)

/-- One iteration of the station loop (`src/data.py:220`-`244`): the fetch
calls it makes (none when `missing_dates` is empty, else exactly one from
the earliest missing hour to `END_DATE`), and the dataframe it appends,
if any.  `none` in the second component means nothing was appended: the
station was skipped, the fetch returned a falsy value, or an exception
(fetch or parse) was caught by the `except` at `src/data.py:242`. -/
def stationStep (fetch : Int → Int → Int → FetchResult) (old : List Row)
    (START_DATE END_DATE station_id : Int) :
    List FetchCall × Option (List RawRow) :=
  match missing_dates old START_DATE END_DATE station_id with
  | [] => ([], none)
  | t :: _ =>
      ([⟨station_id, t, END_DATE⟩],
        match fetch station_id t END_DATE with
        | .raise => none
        | .noData => none
        | .ok d =>
            match create_dataframe_from_api_data d with
            | .ok df => some df
            | .error _ => none)

/-- The fetch calls the loop performs, in order. -/
def fetchCalls (fetch : Int → Int → Int → FetchResult) (old : List Row)
    (START_DATE END_DATE : Int) (STATION_IDS : List Int) : List FetchCall :=
  STATION_IDS.flatMap fun sid => (stationStep fetch old START_DATE END_DATE sid).1

/-- The `dataframes` list built by the loop (`src/data.py:218`, `241`). -/
def dataframes (fetch : Int → Int → Int → FetchResult) (old : List Row)
    (START_DATE END_DATE : Int) (STATION_IDS : List Int) : List (List RawRow) :=
  STATION_IDS.filterMap fun sid => (stationStep fetch old START_DATE END_DATE sid).2

/-- Numeric value of a digit string (most significant digit first). -/
def strToNat (s : String) : Nat :=
  s.toList.foldl (fun n c => 10 * n + (c.toNat - 48)) 0

/-- `astype('int64')` on one entityId string (`src/data.py:250`): succeeds
exactly on a nonempty all-digit string whose value fits in an int64;
otherwise pandas raises (`ValueError` on a non-numeric string such as the
empty string, `OverflowError` beyond int64). -/
def castEntityId (s : String) : Option Int :=
  if s.toList ≠ [] ∧ s.toList.all Char.isDigit = true ∧ strToNat s < 2 ^ 63 then
    some (strToNat s)
  else none

/-- The int64 cast over the concatenated new rows: the first uncastable
entityId raises, aborting the whole routine (the merge phase is outside
the per-station `try`). -/
def castRows : List RawRow → Except String (List Row)
  | [] => .ok []
  | r :: rs =>
      match castEntityId r.entityId with
      | none => .error ("invalid literal for int64 entityId cast")
      | some n =>
          match castRows rs with
          | .error m => .error m
          | .ok rest => .ok (⟨n, r.time, r.value⟩ :: rest)

/-- Lexicographic preorder on `(entityId, time_utc)`, the sort key of
`sort_values(by=['entityId', 'time_utc'])` (`src/data.py:254`). -/
def rowLE (a b : Row) : Prop :=
  a.entityId < b.entityId ∨ (a.entityId = b.entityId ∧ a.time ≤ b.time)

instance : DecidableRel rowLE := fun a b => by
  unfold rowLE; exact inferInstance

instance : IsTotal Row rowLE := by
  constructor
  intro a b
  unfold rowLE
  rcases lt_trichotomy a.entityId b.entityId with h | h | h
  · exact Or.inl (Or.inl h)
  · rcases le_total a.time b.time with ht | ht
    · exact Or.inl (Or.inr ⟨h, ht⟩)
    · exact Or.inr (Or.inr ⟨h.symm, ht⟩)
  · exact Or.inr (Or.inl h)

instance : IsTrans Row rowLE := by
  constructor
  intro a b c hab hbc
  unfold rowLE at *
  rcases hab with h1 | ⟨h1, h1t⟩
  · rcases hbc with h2 | ⟨h2, _⟩
    · exact Or.inl (h1.trans h2)
    · exact Or.inl (h2 ▸ h1)
  · rcases hbc with h2 | ⟨h2, h2t⟩
    · exact Or.inl (h1 ▸ h2)
    · exact Or.inr ⟨h1.trans h2, h1t.trans h2t⟩

/-- `sort_values(by=['entityId', 'time_utc'])` (`src/data.py:254`). -/
def sort_values (l : List Row) : List Row :=
  List.insertionSort rowLE l

/-- `update_and_save_station_data` (`src/data.py:172`-`270`).  Inputs: the
fetcher, the current file content (`none` = the file does not exist), the
window, and the station list.  Output: the fetch calls performed, and
either `.ok none` (the `else` branch at `src/data.py:266`: no dataframe
collected, file untouched), `.ok (some l)` (the file is overwritten with
rows `l`, `src/data.py:258`), or `.error m` (an uncaught exception — the
int64 cast — kills the routine before any write). -/
def update_and_save_station_data (fetch : Int → Int → Int → FetchResult)
    (file : Option (List Row)) (START_DATE END_DATE : Int) (STATION_IDS : List Int) :
    List FetchCall × Except String (Option (List Row)) :=
  (fetchCalls fetch (loadOld file START_DATE) START_DATE END_DATE STATION_IDS,
    if (dataframes fetch (loadOld file START_DATE) START_DATE END_DATE STATION_IDS).isEmpty then
      .ok none
    else
      match castRows (dataframes fetch (loadOld file START_DATE) START_DATE END_DATE STATION_IDS).flatten with
      | .error m => .error m
      | .ok newRows =>
          .ok (some (sort_values (loadOld file START_DATE ++ newRows))))

/-- Number of rows of `l` with the given `(entityId, time_utc)` key. -/
def countKey (l : List Row) (sid t : Int) : Nat :=
  (l.filter fun r => decide (r.entityId = sid ∧ r.time = t)).length

example : entityIdNumber ("urn:ngsi-ld:BikeHireDockingStation:KielRegion:100") = ("100") := rfl
example : entityIdNumber ("urn:ngsi-ld:BikeHireDockingStation:Kiel:1") = ("") := rfl
example : castEntityId ("100") = some 100 := rfl
example : castEntityId ("") = none := rfl
example : full_date_range 6 10 = [6, 7, 8, 9] := rfl

/-! ## Helper lemmas about the embedded routine -/

theorem update_fst (fetch : Int → Int → Int → FetchResult) (file : Option (List Row))
    (s e : Int) (sids : List Int) :
    (update_and_save_station_data fetch file s e sids).1 =
      fetchCalls fetch (loadOld file s) s e sids := rfl

theorem update_snd (fetch : Int → Int → Int → FetchResult) (file : Option (List Row))
    (s e : Int) (sids : List Int) :
    (update_and_save_station_data fetch file s e sids).2 =
      if (dataframes fetch (loadOld file s) s e sids).isEmpty then .ok none
      else
        match castRows (dataframes fetch (loadOld file s) s e sids).flatten with
        | .error m => .error m
        | .ok newRows => .ok (some (sort_values (loadOld file s ++ newRows))) := rfl

/-- A run that overwrites the file writes exactly the sorted concatenation
of the pruned old rows with the successfully cast new rows. -/
theorem written_eq (fetch : Int → Int → Int → FetchResult) (file : Option (List Row))
    (s e : Int) (sids : List Int) (l : List Row)
    (hw : (update_and_save_station_data fetch file s e sids).2 = .ok (some l)) :
    ∃ nr, castRows (dataframes fetch (loadOld file s) s e sids).flatten = .ok nr ∧
      l = sort_values (loadOld file s ++ nr) := by
  rw [update_snd] at hw
  by_cases h1 : (dataframes fetch (loadOld file s) s e sids).isEmpty
  · rw [if_pos h1] at hw
    exact absurd hw (by simp)
  · rw [if_neg h1] at hw
    cases hc : castRows (dataframes fetch (loadOld file s) s e sids).flatten with
    | error m => rw [hc] at hw; exact absurd hw (by simp)
    | ok nr =>
        rw [hc] at hw
        simp only [Except.ok.injEq, Option.some.injEq] at hw
        exact ⟨nr, rfl, hw.symm⟩

theorem castRows_mem {l : List RawRow} {nr : List Row} {r : RawRow} {n : Int}
    (hc : castRows l = .ok nr) (hr : r ∈ l) (hn : castEntityId r.entityId = some n) :
    (⟨n, r.time, r.value⟩ : Row) ∈ nr := by
  induction l generalizing nr with
  | nil => cases hr
  | cons a as ih =>
      rw [castRows] at hc
      cases ha : castEntityId a.entityId with
      | none => rw [ha] at hc; cases hc
      | some m =>
          rw [ha] at hc
          cases hrest : castRows as with
          | error msg => rw [hrest] at hc; cases hc
          | ok rest =>
              rw [hrest] at hc
              simp only [Except.ok.injEq] at hc
              subst hc
              rcases List.mem_cons.mp hr with hr1 | hr2
              · subst hr1
                rw [ha] at hn
                simp only [Option.some.injEq] at hn
                subst hn
                exact List.mem_cons_self _ _
              · exact List.mem_cons_of_mem _ (ih hrest hr2)

theorem castRows_error_of_mem {l : List RawRow} {r : RawRow}
    (hr : r ∈ l) (hn : castEntityId r.entityId = none) :
    ∃ m, castRows l = .error m := by
  induction l with
  | nil => cases hr
  | cons a as ih =>
      rcases List.mem_cons.mp hr with hr1 | hr2
      · subst hr1
        refine ⟨("invalid literal for int64 entityId cast"), ?_⟩
        rw [castRows, hn]
      · rw [castRows]
        cases ha : castEntityId a.entityId with
        | none => exact ⟨("invalid literal for int64 entityId cast"), rfl⟩
        | some m =>
            rcases ih hr2 with ⟨msg, hmsg⟩
            rw [hmsg]
            exact ⟨msg, rfl⟩

theorem dataframes_eq_nil {fetch : Int → Int → Int → FetchResult} {old : List Row}
    {s e : Int} {sids : List Int}
    (h : ∀ sid ∈ sids, (stationStep fetch old s e sid).2 = none) :
    dataframes fetch old s e sids = [] := by
  unfold dataframes
  rw [List.filterMap_eq_nil_iff]
  exact h

theorem mem_dataframes {fetch : Int → Int → Int → FetchResult} {old : List Row}
    {s e sid : Int} {sids : List Int} {df : List RawRow}
    (hs : sid ∈ sids) (h : (stationStep fetch old s e sid).2 = some df) :
    df ∈ dataframes fetch old s e sids :=
  List.mem_filterMap.mpr ⟨sid, hs, h⟩

theorem stationStep_of_missing_nil {fetch : Int → Int → Int → FetchResult} {old : List Row}
    {s e sid : Int} (h : missing_dates old s e sid = []) :
    stationStep fetch old s e sid = ([], none) := by
  unfold stationStep
  rw [h]

theorem stationStep_of_missing_cons {fetch : Int → Int → Int → FetchResult} {old : List Row}
    {s e sid t : Int} {ts : List Int} (h : missing_dates old s e sid = t :: ts) :
    stationStep fetch old s e sid =
      ([⟨sid, t, e⟩],
        match fetch sid t e with
        | .raise => none
        | .noData => none
        | .ok d =>
            match create_dataframe_from_api_data d with
            | .ok df => some df
            | .error _ => none) := by
  unfold stationStep
  rw [h]

/-- A station for which every fetch from any start hour to `END_DATE`
fails (exception, falsy result, or unparseable body) contributes no
dataframe. -/
theorem stationStep_snd_none_of_fail {fetch : Int → Int → Int → FetchResult} {old : List Row}
    {s e sid : Int}
    (h : ∀ f, fetch sid f e = .raise ∨ fetch sid f e = .noData ∨
          ∃ d m, fetch sid f e = .ok d ∧ create_dataframe_from_api_data d = .error m) :
    (stationStep fetch old s e sid).2 = none := by
  cases hm : missing_dates old s e sid with
  | nil => rw [stationStep_of_missing_nil hm]
  | cons t ts =>
      rw [stationStep_of_missing_cons hm]
      rcases h t with hf | hf | ⟨d, m, hf, hd⟩
      · rw [hf]
      · rw [hf]
      · rw [hf]
        simp only
        rw [hd]

/-- If no station of the list has a missing hour, nothing is fetched into
`dataframes` and the routine takes the no-write branch. -/
theorem update_no_write_of_missing_nil {fetch : Int → Int → Int → FetchResult}
    {file : Option (List Row)} {s e : Int} {sids : List Int}
    (h : ∀ sid ∈ sids, missing_dates (loadOld file s) s e sid = []) :
    (update_and_save_station_data fetch file s e sids).2 = .ok none := by
  rw [update_snd]
  rw [dataframes_eq_nil (fun sid hs => by rw [stationStep_of_missing_nil (h sid hs)])]
  rfl

theorem sort_values_sorted (l : List Row) : (sort_values l).Sorted rowLE :=
  List.sorted_insertionSort rowLE l

theorem sort_values_perm (l : List Row) : (sort_values l).Perm l :=
  List.perm_insertionSort rowLE l

theorem full_date_range_pairwise (s e : Int) :
    (full_date_range s e).Pairwise (· ≤ ·) := by
  unfold full_date_range
  refine (List.pairwise_lt_range _).map (fun (i : Nat) => s + (i : Int)) ?_
  intro a b hab
  show s + (a : Int) ≤ s + (b : Int)
  omega

theorem missing_dates_pairwise (old : List Row) (s e sid : Int) :
    (missing_dates old s e sid).Pairwise (· ≤ ·) :=
  (full_date_range_pairwise s e).filter _

theorem mem_missing_dates {old : List Row} {s e sid t : Int} :
    t ∈ missing_dates old s e sid ↔
      t ∈ full_date_range s e ∧ t ∉ available_dates old sid := by
  unfold missing_dates
  rw [List.mem_filter]
  simp only [decide_eq_true_eq]

/-! ## Concrete scenarios -/

/-- The entity URN the API uses for station 100. -/
def urn100 : String := "urn:ngsi-ld:BikeHireDockingStation:KielRegion:100"

/-- Fetcher of the spec scenario for C1/C2: complete data for hours 6-9
of the window `[6, 10)` when asked from hour 6. -/
def c1_fetch : Int → Int → Int → FetchResult := fun sid f t =>
  if sid = 100 ∧ f = 6 ∧ t = 10 then
    .ok ⟨some [6, 7, 8, 9], some urn100, some [1, 2, 3, 4]⟩
  else .noData

/-- Pre-existing cache of the C1/C2 scenario: station 100 holds (stale)
rows for hours 8 and 9 only. -/
def c1_file : List Row := [⟨100, 8, 50⟩, ⟨100, 9, 60⟩]

/-- The rows the C1/C2 run fetches, after the int64 cast. -/
def c1_new : List Row := [⟨100, 6, 1⟩, ⟨100, 7, 2⟩, ⟨100, 8, 3⟩, ⟨100, 9, 4⟩]

/-- The file the C1/C2 run writes: old and new rows for hours 8 and 9
both survive the merge. -/
def c1_written : List Row :=
  [⟨100, 6, 1⟩, ⟨100, 7, 2⟩, ⟨100, 8, 50⟩, ⟨100, 8, 3⟩, ⟨100, 9, 60⟩, ⟨100, 9, 4⟩]

/-- Remote content of the C3 scenario: hours 6, 7 and 9 exist, hour 8 is
permanently absent from the remote. -/
def c3_remote : List (Int × Int) := [(6, 1), (7, 2), (9, 3)]

/-- Fetcher of the C3 scenario: returns every remote reading from the
requested start hour on; deterministic, so the remote data is identical
in both runs (no new remote data between them). -/
def c3_fetch : Int → Int → Int → FetchResult := fun sid f t =>
  if sid = 100 ∧ t = 10 then
    .ok ⟨some ((c3_remote.filter fun p => decide (f ≤ p.1)).map Prod.fst), some urn100,
      some ((c3_remote.filter fun p => decide (f ≤ p.1)).map Prod.snd)⟩
  else .noData

/-- Cache file after the first C3 run. -/
def c3_first : List Row := [⟨100, 6, 1⟩, ⟨100, 7, 2⟩, ⟨100, 9, 3⟩]

/-- Cache file after the second C3 run: hour 9 was re-fetched and now
appears twice. -/
def c3_second : List Row := [⟨100, 6, 1⟩, ⟨100, 7, 2⟩, ⟨100, 9, 3⟩, ⟨100, 9, 3⟩]

/-- Fetcher of the C4 scenario: a well-formed response whose entityId
does not contain the `KielRegion:<digits>` pattern. -/
def c4_fetch : Int → Int → Int → FetchResult := fun _ _ _ =>
  .ok ⟨some [0], some ("urn:ngsi-ld:BikeHireDockingStation:Kiel:1"), some [5]⟩

/-- The raw row the C4 fetch parses to: its entityId is the empty string. -/
def c4_raw : RawRow := ⟨"", 0, 5⟩

/-- Fetcher of the C7 counterexample: a truthy, well-formed response with
an empty index and an empty value list, parsing to a dataframe with zero
rows. -/
def c7_fetch : Int → Int → Int → FetchResult := fun _ _ _ =>
  .ok ⟨some [], some urn100, some []⟩

/-- Cache file of the C7 counterexample: its only row lies before the
window start and is pruned on load. -/
def c7_file : List Row := [⟨100, 5, 7⟩]

/-- A fetcher whose every call returns a falsy result (non-200). -/
def noDataFetch : Int → Int → Int → FetchResult := fun _ _ _ => .noData

/-! ## Claims -/

/-- C1: the claim "the written file contains at most one row per
(entityId, time_utc) pair" is false.  In the spec's own scenario (station
100 cached for hours 8-9, window `[6, 10)`, fetch from hour 6 returning
hours 6-9), the written file contains two rows for the key `(100, 8)`:
the merge at `src/data.py:252` is a plain concatenation with no
deduplication. -/
theorem C1_counterexample :
    (update_and_save_station_data c1_fetch (some c1_file) 6 10 [100]).2 =
      .ok (some c1_written)
    ∧ countKey c1_written 100 8 = 2 := ⟨rfl, rfl⟩

/-- C1 (amended): every run that writes the cache file writes a
permutation of the pruned old rows concatenated with all fetched rows —
nothing is deduplicated, so a station with cached hours between its
earliest missing hour and `END_DATE` ends up with two rows for each
re-fetched hour. -/
theorem C1_merge_keeps_all_rows (fetch : Int → Int → Int → FetchResult)
    (file : Option (List Row)) (s e : Int) (sids : List Int) (l nr : List Row)
    (hc : castRows (dataframes fetch (loadOld file s) s e sids).flatten = .ok nr)
    (hw : (update_and_save_station_data fetch file s e sids).2 = .ok (some l)) :
    l.Perm (loadOld file s ++ nr) := by
  rcases written_eq fetch file s e sids l hw with ⟨nr2, hc2, hl⟩
  rw [hc] at hc2
  cases hc2
  rw [hl]
  exact sort_values_perm _

theorem C1_merge_keeps_all_rows_witness :
    c1_written.Perm (loadOld (some c1_file) 6 ++ c1_new) :=
  C1_merge_keeps_all_rows c1_fetch (some c1_file) 6 10 [100] c1_written c1_new rfl rfl

/-- C2: the claim that the spec scenario ends with exactly 4 rows for
station 100 with the stale values at hours 8 and 9 overwritten is false:
the run writes 6 rows for station 100, and the stale row `(100, 8, 50)`
is still present. -/
theorem C2_counterexample :
    (update_and_save_station_data c1_fetch (some c1_file) 6 10 [100]).2 =
      .ok (some c1_written)
    ∧ (c1_written.filter fun r => decide (r.entityId = 100)).length = 6
    ∧ (⟨100, 8, 50⟩ : Row) ∈ c1_written := ⟨rfl, rfl, by decide⟩

/-- C2 (amended): in the spec scenario (station 100 cached for hours 8-9,
window `[6, 10)`, fetcher returning complete data for the window when
called from hour 6) the resulting cache holds exactly 6 rows for station
100: hours 6 and 7 once, hours 8 and 9 twice each — both the stale
pre-existing values and the newly fetched values are present. -/
theorem C2_duplicate_scenario :
    (update_and_save_station_data c1_fetch (some c1_file) 6 10 [100]).2 =
      .ok (some c1_written)
    ∧ countKey c1_written 100 6 = 1 ∧ countKey c1_written 100 7 = 1
    ∧ countKey c1_written 100 8 = 2 ∧ countKey c1_written 100 9 = 2
    ∧ (⟨100, 8, 50⟩ : Row) ∈ c1_written ∧ (⟨100, 8, 3⟩ : Row) ∈ c1_written
    ∧ (⟨100, 9, 60⟩ : Row) ∈ c1_written ∧ (⟨100, 9, 4⟩ : Row) ∈ c1_written := by
  refine ⟨rfl, rfl, rfl, rfl, rfl, ?_, ?_, ?_, ?_⟩ <;> decide

/-- C3: the idempotence claim is false.  With a remote that permanently
lacks hour 8 of the window `[6, 10)` (and no new remote data between the
runs — the fetcher is the same deterministic function both times), the
first run writes hours 6, 7, 9; the second run still sees hour 8 missing,
re-fetches the tail from hour 8, gets hour 9 again, and writes a file
that differs from the first (hour 9 now duplicated). -/
theorem C3_counterexample :
    (update_and_save_station_data c3_fetch none 6 10 [100]).2 = .ok (some c3_first)
    ∧ (update_and_save_station_data c3_fetch (some c3_first) 6 10 [100]).2 =
        .ok (some c3_second)
    ∧ c3_second ≠ c3_first
    ∧ countKey c3_second 100 9 = 2 := ⟨rfl, rfl, by decide, rfl⟩

/-- C3 (amended): a second run is a no-op (no fetch, no write, file
byte-for-byte unchanged) when the first run left no hour of the window
missing for any station; when some hour is still missing, the second run
re-fetches the tail from it and appends whatever comes back without
deduplication, so the file can change and acquire duplicate rows. -/
theorem C3_no_refetch_when_covered (fetch : Int → Int → Int → FetchResult)
    (old : List Row) (s e : Int) (sids : List Int)
    (h : ∀ sid ∈ sids, missing_dates (loadOld (some old) s) s e sid = []) :
    (update_and_save_station_data fetch (some old) s e sids).2 = .ok none :=
  update_no_write_of_missing_nil h

theorem C3_no_refetch_when_covered_witness :
    (update_and_save_station_data c3_fetch (some [⟨100, 6, 1⟩]) 6 7 [100]).2 = .ok none :=
  C3_no_refetch_when_covered c3_fetch [⟨100, 6, 1⟩] 6 7 [100] (by decide)

/-- C4: the claim that no exception in the routine is fatal is false.
A fetch response whose entityId does not match `KielRegion:<digits>`
parses to rows with an empty-string entityId; the int64 cast of the merge
phase (`src/data.py:250`) sits outside the per-station `try` and raises,
killing the routine before any write. -/
theorem C4_counterexample :
    (update_and_save_station_data c4_fetch none 0 1 [1]).2 =
      .error ("invalid literal for int64 entityId cast") := rfl

/-- C4 (amended): per-station fetch and parse exceptions are caught and
every station is attempted, but if any collected row carries an entityId
the int64 cast rejects (such as the empty string produced by a
non-matching entityId), the merge phase raises an uncaught — fatal —
exception and the cache file is not written; when the routine does write,
the file is sorted but may contain duplicate (entityId, time_utc) rows. -/
theorem C4_cast_failure_fatal (fetch : Int → Int → Int → FetchResult)
    (file : Option (List Row)) (s e : Int) (sids : List Int)
    (df : List RawRow) (r : RawRow)
    (hdf : df ∈ dataframes fetch (loadOld file s) s e sids)
    (hr : r ∈ df) (hn : castEntityId r.entityId = none) :
    ∃ m, (update_and_save_station_data fetch file s e sids).2 = .error m := by
  have hfl : r ∈ (dataframes fetch (loadOld file s) s e sids).flatten :=
    List.mem_flatten.mpr ⟨df, hdf, hr⟩
  rcases castRows_error_of_mem hfl hn with ⟨m, hm⟩
  refine ⟨m, ?_⟩
  rw [update_snd]
  have hne : ¬((dataframes fetch (loadOld file s) s e sids).isEmpty = true) := by
    simp only [List.isEmpty_iff]
    exact List.ne_nil_of_mem hdf
  rw [if_neg hne, hm]

theorem C4_cast_failure_fatal_witness :
    ∃ m, (update_and_save_station_data c4_fetch none 0 1 [1]).2 = .error m :=
  C4_cast_failure_fatal c4_fetch none 0 1 [1] [c4_raw] c4_raw (by decide) (by decide)
    (by decide)

/-- C7: the claim "no readings accumulated implies the file is left
untouched" is false.  A truthy, well-formed fetch response with an empty
index parses to a dataframe with zero rows; the `if dataframes:` test at
`src/data.py:246` sees a non-empty list, so the routine rewrites the file
(here: with the pruned old row gone) although zero readings were
accumulated. -/
theorem C7_counterexample :
    (dataframes c7_fetch (loadOld (some c7_file) 6) 6 8 [100]).flatten = ([] : List RawRow)
    ∧ (update_and_save_station_data c7_fetch (some c7_file) 6 8 [100]).2 = .ok (some [])
    ∧ ([] : List Row) ≠ c7_file := ⟨rfl, rfl, by decide⟩

/-- C7 (amended): the file is left untouched exactly when no dataframe is
collected: if every station either has no missing hour or all its
fetches fail (exception, falsy result, or unparseable body), no write
occurs — even though rows before `START_DATE` were pruned from the
in-memory copy.  A successfully parsed response with zero rows, however,
still counts as a collected dataframe and triggers a rewrite. -/
theorem C7_no_write_when_nothing_collected (fetch : Int → Int → Int → FetchResult)
    (file : Option (List Row)) (s e : Int) (sids : List Int)
    (h : ∀ sid ∈ sids, missing_dates (loadOld file s) s e sid = [] ∨
          ∀ f, fetch sid f e = .raise ∨ fetch sid f e = .noData ∨
            ∃ d m, fetch sid f e = .ok d ∧ create_dataframe_from_api_data d = .error m) :
    (update_and_save_station_data fetch file s e sids).2 = .ok none := by
  have hd : dataframes fetch (loadOld file s) s e sids = [] := by
    refine dataframes_eq_nil ?_
    intro sid hs
    rcases h sid hs with hm | hf
    · rw [stationStep_of_missing_nil hm]
    · exact stationStep_snd_none_of_fail hf
  rw [update_snd, hd]
  rfl

theorem C7_no_write_when_nothing_collected_witness :
    (update_and_save_station_data noDataFetch (some c7_file) 6 8 [100]).2 = .ok none :=
  C7_no_write_when_nothing_collected noDataFetch (some c7_file) 6 8 [100]
    (fun _ _ => Or.inr (fun _ => Or.inr (Or.inl rfl)))

/-- Fetcher of the C6 witness: every fetch for station 3 raises; station 1
gets data; everything else is a non-200. -/
def c6_fetch : Int → Int → Int → FetchResult := fun sid f t =>
  if sid = 3 then .raise
  else if sid = 1 ∧ f = 0 ∧ t = 2 then .ok ⟨some [0, 1], some urn100, some [4, 5]⟩
  else .noData

/-- C6: a failure while fetching or parsing one station's data — an
exception from the HTTP call, a non-200 response (`None`, contributing no
rows), or a body missing one of the keys `index`/`entityId`/`attributes`
(a `ValueError` from `src/data.py:136`) — is caught by the per-station
`except` at `src/data.py:242`, and the run produces the same result as if
that station were not in the list at all: the remaining stations are
still processed, merged and written. -/
theorem C6_failure_isolated (fetch : Int → Int → Int → FetchResult)
    (file : Option (List Row)) (s e s0 : Int) (pre post : List Int)
    (h : ∀ f, fetch s0 f e = .raise ∨ fetch s0 f e = .noData ∨
          ∃ d m, fetch s0 f e = .ok d ∧ create_dataframe_from_api_data d = .error m) :
    (update_and_save_station_data fetch file s e (pre ++ s0 :: post)).2 =
      (update_and_save_station_data fetch file s e (pre ++ post)).2 := by
  have hstep : (stationStep fetch (loadOld file s) s e s0).2 = none :=
    stationStep_snd_none_of_fail h
  have hd : dataframes fetch (loadOld file s) s e (pre ++ s0 :: post) =
      dataframes fetch (loadOld file s) s e (pre ++ post) := by
    unfold dataframes
    rw [List.filterMap_append, List.filterMap_append, List.filterMap_cons, hstep]
  rw [update_snd, update_snd, hd]

theorem C6_failure_isolated_witness :
    (update_and_save_station_data c6_fetch none 0 2 ([1] ++ 3 :: [2])).2 =
      (update_and_save_station_data c6_fetch none 0 2 ([1] ++ [2])).2 :=
  C6_failure_isolated c6_fetch none 0 2 3 [1] [2] (fun _ => Or.inl rfl)

/-- C8: every cache file the routine writes is sorted non-decreasingly in
the lexicographic order on (entityId, time_utc) — `sort_values` at
`src/data.py:254` runs on every write path.  The dense 0-based row order
with no persisted index column (`reset_index(drop=True)`,
`to_csv(index=False)`) is captured structurally: the written file is the
bare list of data rows. -/
theorem C8_written_sorted (fetch : Int → Int → Int → FetchResult)
    (file : Option (List Row)) (s e : Int) (sids : List Int) (l : List Row)
    (hw : (update_and_save_station_data fetch file s e sids).2 = .ok (some l)) :
    l.Sorted rowLE := by
  rcases written_eq fetch file s e sids l hw with ⟨nr, _, hl⟩
  rw [hl]
  exact sort_values_sorted _

theorem C8_written_sorted_witness : c1_written.Sorted rowLE :=
  C8_written_sorted c1_fetch (some c1_file) 6 10 [100] c1_written rfl

/-- Cache file of the C9 witness: one row before the window start plus
the two stale rows of the C1/C2 scenario. -/
def c9_file : List Row := ⟨100, 5, 70⟩ :: c1_file

/-- C9: a missing cache file is treated as an empty cache (not an error),
and rows loaded from an existing file with `time_utc < START_DATE` are
excluded from the in-memory merge result: every written row either comes
from the fetched data or is an old row with `time_utc ≥ START_DATE`. -/
theorem C9_pruning (fetch : Int → Int → Int → FetchResult) (old : List Row)
    (s e : Int) (sids : List Int) (l : List Row)
    (hw : (update_and_save_station_data fetch (some old) s e sids).2 = .ok (some l)) :
    loadOld none s = [] ∧
    ∃ nr, castRows (dataframes fetch (loadOld (some old) s) s e sids).flatten = .ok nr ∧
      ∀ r ∈ l, r ∉ nr → r ∈ old ∧ s ≤ r.time := by
  refine ⟨rfl, ?_⟩
  rcases written_eq fetch (some old) s e sids l hw with ⟨nr, hc, hl⟩
  refine ⟨nr, hc, ?_⟩
  intro r hr hnr
  rw [hl] at hr
  have hmem := (sort_values_perm _).mem_iff.mp hr
  rcases List.mem_append.mp hmem with h1 | h2
  · rcases List.mem_filter.mp
      (show r ∈ old.filter (fun x => decide (s ≤ x.time)) from h1) with ⟨hmo, hdec⟩
    exact ⟨hmo, of_decide_eq_true hdec⟩
  · exact absurd h2 hnr

theorem C9_pruning_witness :
    loadOld none 6 = ([] : List Row) ∧
    ∃ nr, castRows (dataframes c1_fetch (loadOld (some c9_file) 6) 6 10 [100]).flatten =
        .ok nr ∧
      ∀ r ∈ c1_written, r ∉ nr → r ∈ c9_file ∧ (6 : Int) ≤ r.time :=
  C9_pruning c1_fetch c9_file 6 10 [100] c1_written rfl

/-- Fetcher of the C10 witness: returns a reading at hour 12, beyond the
window end 10 (the fetch's `toDate` is `END_DATE` itself, so the API may
return readings at or after it). -/
def c10_fetch : Int → Int → Int → FetchResult := fun sid f t =>
  if sid = 100 ∧ f = 6 ∧ t = 10 then .ok ⟨some [6, 12], some urn100, some [1, 9]⟩
  else .noData

/-- The raw rows the C10 witness fetch parses to. -/
def c10_raws : List RawRow := [⟨"100", 6, 1⟩, ⟨"100", 12, 9⟩]

/-- The file the C10 witness run writes. -/
def c10_written : List Row := [⟨100, 6, 1⟩, ⟨100, 12, 9⟩]

/-- C10: window filtering applies only to previously cached rows — the
pruning at `src/data.py:209` touches `old_data_temp` only, and no
timestamp filter is applied to fetched rows anywhere between parse and
`to_csv`.  Any parsed reading, in particular one with a timestamp before
`START_DATE` or at/after `END_DATE`, is written to the cache file
unchanged (provided the run writes, i.e. the cast of all collected
entityIds succeeds). -/
theorem C10_no_window_filter (fetch : Int → Int → Int → FetchResult)
    (file : Option (List Row)) (s e sid t v n : Int) (sids : List Int)
    (eidS : String) (raws : List RawRow) (l : List Row)
    (hsid : sid ∈ sids)
    (hdf : (stationStep fetch (loadOld file s) s e sid).2 = some raws)
    (hr : (⟨eidS, t, v⟩ : RawRow) ∈ raws)
    (hcast : castEntityId eidS = some n)
    (_hout : t < s ∨ e ≤ t)
    (hw : (update_and_save_station_data fetch file s e sids).2 = .ok (some l)) :
    (⟨n, t, v⟩ : Row) ∈ l := by
  rcases written_eq fetch file s e sids l hw with ⟨nr, hc, hl⟩
  have hdfs : raws ∈ dataframes fetch (loadOld file s) s e sids := mem_dataframes hsid hdf
  have hfl : (⟨eidS, t, v⟩ : RawRow) ∈
      (dataframes fetch (loadOld file s) s e sids).flatten :=
    List.mem_flatten.mpr ⟨raws, hdfs, hr⟩
  have hnr : (⟨n, t, v⟩ : Row) ∈ nr := castRows_mem hc hfl hcast
  rw [hl]
  exact (sort_values_perm _).mem_iff.mpr (List.mem_append.mpr (Or.inr hnr))

theorem C10_no_window_filter_witness : (⟨100, 12, 9⟩ : Row) ∈ c10_written :=
  C10_no_window_filter c10_fetch none 6 10 100 12 9 100 [100] ("100") c10_raws c10_written
    (by decide) rfl (by decide) rfl (Or.inr (by decide)) rfl

/-! ## Helpers for the fetch-call policy -/

theorem mem_fetchCalls {fetch : Int → Int → Int → FetchResult} {old : List Row}
    {s e : Int} {sids : List Int} {c : FetchCall} :
    c ∈ fetchCalls fetch old s e sids ↔
      ∃ sid ∈ sids, c ∈ (stationStep fetch old s e sid).1 := by
  unfold fetchCalls
  exact List.mem_flatMap

theorem stationStep_fst_call {fetch : Int → Int → Int → FetchResult} {old : List Row}
    {s e sid : Int} {c : FetchCall} (h : c ∈ (stationStep fetch old s e sid).1) :
    ∃ ts, missing_dates old s e sid = c.from_date :: ts
      ∧ c.station_id = sid ∧ c.to_date = e := by
  cases hm : missing_dates old s e sid with
  | nil =>
      rw [stationStep_of_missing_nil hm] at h
      cases h
  | cons t ts =>
      rw [stationStep_of_missing_cons hm] at h
      have hc : c = ⟨sid, t, e⟩ := List.mem_singleton.mp h
      subst hc
      exact ⟨ts, rfl, rfl, rfl⟩

theorem call_mem_of_missing_cons {fetch : Int → Int → Int → FetchResult} {old : List Row}
    {s e sid t : Int} {ts : List Int} (hm : missing_dates old s e sid = t :: ts) :
    (⟨sid, t, e⟩ : FetchCall) ∈ (stationStep fetch old s e sid).1 := by
  rw [stationStep_of_missing_cons hm]
  exact List.mem_singleton.mpr rfl

theorem station_id_of_mem_fetchCalls {fetch : Int → Int → Int → FetchResult}
    {old : List Row} {s e : Int} {sids : List Int} {c : FetchCall}
    (h : c ∈ fetchCalls fetch old s e sids) : c.station_id ∈ sids := by
  rcases mem_fetchCalls.mp h with ⟨sid, hsid, hc⟩
  rcases stationStep_fst_call hc with ⟨ts, _, hcs, _⟩
  rw [hcs]
  exact hsid

theorem stationStep_fst_length {fetch : Int → Int → Int → FetchResult} {old : List Row}
    {s e sid : Int} : ((stationStep fetch old s e sid).1).length ≤ 1 := by
  cases hm : missing_dates old s e sid with
  | nil => rw [stationStep_of_missing_nil hm]; simp
  | cons t ts => rw [stationStep_of_missing_cons hm]; simp

/-- With a duplicate-free station list, at most one fetch call targets any
given station. -/
theorem fetchCalls_filter_length {fetch : Int → Int → Int → FetchResult} {old : List Row}
    {s e : Int} (sids : List Int) (sid : Int) (hnd : sids.Nodup) :
    ((fetchCalls fetch old s e sids).filter fun c =>
      decide (c.station_id = sid)).length ≤ 1 := by
  induction sids with
  | nil => simp [fetchCalls]
  | cons a as ih =>
      rcases List.nodup_cons.mp hnd with ⟨ha, hnd2⟩
      have hsplit : fetchCalls fetch old s e (a :: as) =
          (stationStep fetch old s e a).1 ++ fetchCalls fetch old s e as := by
        unfold fetchCalls
        rw [List.flatMap_cons]
      rw [hsplit, List.filter_append, List.length_append]
      by_cases has : a = sid
      · subst has
        have h2 : (fetchCalls fetch old s e as).filter
            (fun c => decide (c.station_id = a)) = [] := by
          rw [List.filter_eq_nil_iff]
          intro c hc
          simp only [decide_eq_true_eq]
          intro hcs
          exact ha (hcs ▸ station_id_of_mem_fetchCalls hc)
        have h1 := le_trans
          (List.length_filter_le (fun c => decide (c.station_id = a))
            (stationStep fetch old s e a).1)
          stationStep_fst_length
        rw [h2]
        simpa using h1
      · have h1 : ((stationStep fetch old s e a).1.filter fun c =>
            decide (c.station_id = sid)) = [] := by
          rw [List.filter_eq_nil_iff]
          intro c hc
          rcases stationStep_fst_call hc with ⟨ts, _, hcs, _⟩
          simp only [decide_eq_true_eq]
          intro hsi
          exact has (by rw [← hcs, hsi])
        rw [h1]
        simpa using ih hnd2

/-- C5: for every station of a duplicate-free station list, the fetcher is
invoked iff some hour of `{START_DATE, ..., END_DATE-1h}` is absent from
the station's cached rows; it is then invoked exactly once, with
`fromDate` the least missing hour and `toDate = END_DATE`; and when no
station has a missing hour, the file is not written at all. -/
theorem C5_fetch_policy (fetch : Int → Int → Int → FetchResult)
    (file : Option (List Row)) (s e sid : Int) (sids : List Int)
    (hmem : sid ∈ sids) (hnd : sids.Nodup) :
    ((∃ c ∈ (update_and_save_station_data fetch file s e sids).1, c.station_id = sid) ↔
      ∃ t ∈ full_date_range s e, t ∉ available_dates (loadOld file s) sid)
    ∧ (((update_and_save_station_data fetch file s e sids).1.filter fun c =>
          decide (c.station_id = sid)).length ≤ 1)
    ∧ (∀ c ∈ (update_and_save_station_data fetch file s e sids).1, c.station_id = sid →
        c.to_date = e ∧ c.from_date ∈ full_date_range s e
          ∧ c.from_date ∉ available_dates (loadOld file s) sid
          ∧ ∀ u ∈ full_date_range s e, u ∉ available_dates (loadOld file s) sid →
              c.from_date ≤ u)
    ∧ ((∀ sid2 ∈ sids, ∀ t ∈ full_date_range s e,
          t ∈ available_dates (loadOld file s) sid2) →
        (update_and_save_station_data fetch file s e sids).2 = .ok none) := by
  rw [update_fst]
  refine ⟨⟨?_, ?_⟩, ?_, ?_, ?_⟩
  · rintro ⟨c, hc, hcs⟩
    rcases mem_fetchCalls.mp hc with ⟨sid2, _, hstep⟩
    rcases stationStep_fst_call hstep with ⟨ts, hm, hcs2, _⟩
    have hss : sid2 = sid := by rw [← hcs2, hcs]
    rw [hss] at hm
    have hhead : c.from_date ∈ missing_dates (loadOld file s) s e sid := by
      rw [hm]
      exact List.mem_cons_self _ _
    rcases mem_missing_dates.mp hhead with ⟨h1, h2⟩
    exact ⟨c.from_date, h1, h2⟩
  · rintro ⟨t, ht, hta⟩
    have htm : t ∈ missing_dates (loadOld file s) s e sid :=
      mem_missing_dates.mpr ⟨ht, hta⟩
    cases hm : missing_dates (loadOld file s) s e sid with
    | nil => rw [hm] at htm; cases htm
    | cons t0 ts =>
        exact ⟨⟨sid, t0, e⟩, mem_fetchCalls.mpr ⟨sid, hmem, call_mem_of_missing_cons hm⟩, rfl⟩
  · exact fetchCalls_filter_length sids sid hnd
  · intro c hc hcs
    rcases mem_fetchCalls.mp hc with ⟨sid2, _, hstep⟩
    rcases stationStep_fst_call hstep with ⟨ts, hm, hcs2, hct⟩
    have hss : sid2 = sid := by rw [← hcs2, hcs]
    rw [hss] at hm
    have hhead : c.from_date ∈ missing_dates (loadOld file s) s e sid := by
      rw [hm]
      exact List.mem_cons_self _ _
    rcases mem_missing_dates.mp hhead with ⟨h1, h2⟩
    refine ⟨hct, h1, h2, ?_⟩
    intro u hu hua
    have hum : u ∈ missing_dates (loadOld file s) s e sid :=
      mem_missing_dates.mpr ⟨hu, hua⟩
    rw [hm] at hum
    rcases List.mem_cons.mp hum with hu0 | humem
    · rw [hu0]
    · have hp := missing_dates_pairwise (loadOld file s) s e sid
      rw [hm] at hp
      exact (List.pairwise_cons.mp hp).1 u humem
  · intro h
    refine update_no_write_of_missing_nil ?_
    intro sid2 hs2
    unfold missing_dates
    rw [List.filter_eq_nil_iff]
    intro t htr
    simp only [decide_eq_true_eq, not_not]
    exact h sid2 hs2 t htr

theorem C5_fetch_policy_witness :
    ((∃ c ∈ (update_and_save_station_data c1_fetch (some c1_file) 6 10 [100]).1,
        c.station_id = 100) ↔
      ∃ t ∈ full_date_range 6 10, t ∉ available_dates (loadOld (some c1_file) 6) 100)
    ∧ (((update_and_save_station_data c1_fetch (some c1_file) 6 10 [100]).1.filter fun c =>
          decide (c.station_id = 100)).length ≤ 1)
    ∧ (∀ c ∈ (update_and_save_station_data c1_fetch (some c1_file) 6 10 [100]).1,
        c.station_id = 100 →
        c.to_date = 10 ∧ c.from_date ∈ full_date_range 6 10
          ∧ c.from_date ∉ available_dates (loadOld (some c1_file) 6) 100
          ∧ ∀ u ∈ full_date_range 6 10,
              u ∉ available_dates (loadOld (some c1_file) 6) 100 → c.from_date ≤ u)
    ∧ ((∀ sid2 ∈ [(100 : Int)], ∀ t ∈ full_date_range 6 10,
          t ∈ available_dates (loadOld (some c1_file) 6) sid2) →
        (update_and_save_station_data c1_fetch (some c1_file) 6 10 [100]).2 = .ok none) :=
  C5_fetch_policy c1_fetch (some c1_file) 6 10 100 [100] (by decide) (by decide)
